import Mathlib

/-!
Shallow embedding of the Gantt supabase storage adapter
(src/supabase-storage.js): the session-scoped read-through /
write-through cache with deferred remote persistence.

Modelling conventions:
* The mutable module state (the supabase client handle, the projects
  list cache, the board data cache, the registered auth callback) is a
  `StorageState` record threaded explicitly: `enabled` models
  `!!supabase`, `hasAuthCallback` models `!!authCallback`.
* The board data cache, a JS object keyed by project id, is an
  association list with `lookupKey` / `setKey` / `dropKey`.
* Remote I/O is modelled by passing each operation the outcome the
  remote would return (e.g. `BoardFetchResult`), and by emitting a
  `RemoteEvent` trace listing, in program order, the remote requests an
  operation issues and the auth-callback invocations it performs.  A
  `callback` event carries the cache state visible at the moment the
  callback runs, so "X happens before the callback" is expressed by the
  snapshot inside the event.
* JS falsiness of strings is explicit: an absent/empty string project
  id fails the `!projectId` guards, and `x || d` on strings is `jsOrS`.
-/

namespace GanttStorage

/-- One task record; its shape is opaque to the storage layer, a single
`task` label is enough to reason about structural equality. -/
structure TaskRec where
  task : String
deriving DecidableEq, Repr

/-- Board settings are an opaque key-value map; modelled as an
association list. -/
abbrev Settings := List (String × String)

/-- Custom palettes are opaque records. -/
abbrev Palette := String

/-- One cached `board_data` document, as stored in `boardDataCache`:
all four fields are present (never null) once a row exists. -/
structure BoardRow where
  tasks : List TaskRec
  settings : Settings
  view : String
  custom_palettes : List Palette
deriving DecidableEq, Repr

/-- One entry of `projectsListCache`. -/
structure ProjectSummary where
  id : String
  name : String
  createdAt : Nat
deriving DecidableEq, Repr

/-- The module-level mutable state of supabase-storage.js. -/
structure StorageState where
  enabled : Bool
  hasAuthCallback : Bool
  projectsListCache : List ProjectSummary
  boardDataCache : List (String × BoardRow)
deriving DecidableEq, Repr

/-- Remote requests and callback invocations, emitted in program order.
`callback` records the argument and the state observed by the callback
at the moment it is invoked. -/
inductive RemoteEvent where
  | fetchBoardsList
  | fetchBoardData (pid : String)
  | updateBoardName (pid : String)
  | upsertBoardData (pid : String) (row : BoardRow)
  | insertSummaryRow (name : String)
  | insertDocRow (pid : String)
  | deleteSummaryRow (pid : String)
  | authSignOut
  | callback (sess : Option String) (snapshot : StorageState)
deriving DecidableEq, Repr

/-- JS `v || d` on strings: the empty string is falsy. -/
def jsOrS (v d : String) : String := if v = "" then d else v

/-- JS `v || d` where `v` may be null/undefined. -/
def jsOrOptS (v : Option String) (d : String) : String :=
  match v with
  | none => d
  | some s => jsOrS s d

/-- `boardDataCache[k]` on the association list. -/
def lookupKey (l : List (String × BoardRow)) (k : String) : Option BoardRow :=
  match l with
  | [] => none
  | (k2, v) :: rest => if k2 = k then some v else lookupKey rest k

/-- `boardDataCache[k] = v` on the association list. -/
def setKey (l : List (String × BoardRow)) (k : String) (v : BoardRow) :
    List (String × BoardRow) :=
  match l with
  | [] => [(k, v)]
  | (k2, v2) :: rest => if k2 = k then (k, v) :: rest else (k2, v2) :: setKey rest k v

/-- `delete boardDataCache[k]`. -/
def dropKey (l : List (String × BoardRow)) (k : String) : List (String × BoardRow) :=
  match l with
  | [] => []
  | (k2, v) :: rest => if k2 = k then dropKey rest k else (k2, v) :: dropKey rest k

/-- One row of the remote `boards` select used by
`ensureBoardsListLoaded` (`name` may be null). -/
structure BoardsRow where
  id : String
  name : Option String
  created_at : Nat
deriving DecidableEq, Repr

/-- Outcome of the remote boards-list select: `ok` (with possibly-null
data, handled by `data || []`) or an error. -/
inductive ListFetchResult where
  | ok (rows : Option (List BoardsRow))
  | err
deriving DecidableEq, Repr

/-- One remote `board_data` row as fetched; every field may be null. -/
structure RemoteBoardRow where
  tasks : Option (List TaskRec)
  settings : Option Settings
  view : Option String
  custom_palettes : Option (List Palette)
deriving DecidableEq, Repr

/-- Outcome of the single-row `board_data` select: a row, the
distinguished no-row error (PGRST116), or any other error. -/
inductive BoardFetchResult where
  | ok (row : RemoteBoardRow)
  | errNoRow
  | errOther
deriving DecidableEq, Repr

/-- `isCloudEnabled()`. -/
def isCloudEnabled (s : StorageState) : Bool := s.enabled

/-- Mapping of one fetched boards row into a `ProjectSummary`
(`row.name || "Untitled project"`). -/
def summaryOfRow (r : BoardsRow) : ProjectSummary :=
  { id := r.id, name := jsOrOptS r.name "Untitled project", createdAt := r.created_at }

/-- `ensureBoardsListLoaded()`, the session read modelled by the
`sess` argument and the remote select outcome by `res`.  On error the
cache keeps its previous value. -/
def ensureBoardsListLoaded (s : StorageState) (sess : Option String)
    (res : ListFetchResult) : StorageState × List RemoteEvent :=
  if s.enabled = false then (s, [])
  else match sess with
  | none => (s, [])
  | some _ =>
    match res with
    | .err => (s, [.fetchBoardsList])
    | .ok rows =>
      ({ s with projectsListCache := (rows.getD []).map summaryOfRow },
       [.fetchBoardsList])

/-- The default-empty board document seeded on fetch failure and at
creation. -/
def defaultBoardRow : BoardRow :=
  { tasks := [], settings := [], view := "default", custom_palettes := [] }

/-- Field-wise defaulting of a fetched `board_data` row
(`data.tasks || []`, `data.view || "default"`, ...). -/
def rowOfRemote (r : RemoteBoardRow) : BoardRow :=
  { tasks := r.tasks.getD []
    settings := r.settings.getD []
    view := jsOrOptS r.view "default"
    custom_palettes := r.custom_palettes.getD [] }

/-- `ensureBoardDataLoaded(projectId)`, with the outcome of the remote
single-row select passed as `res`.  Emits `fetchBoardData` exactly when
the remote select is issued. -/
def ensureBoardDataLoaded (s : StorageState) (pid : String)
    (res : BoardFetchResult) : StorageState × List RemoteEvent :=
  if s.enabled = false ∨ pid = "" then (s, [])
  else if (lookupKey s.boardDataCache pid).isSome then (s, [])
  else
    match res with
    | .ok r =>
      ({ s with boardDataCache := setKey s.boardDataCache pid (rowOfRemote r) },
       [.fetchBoardData pid])
    | .errNoRow =>
      ({ s with boardDataCache := setKey s.boardDataCache pid defaultBoardRow },
       [.fetchBoardData pid])
    | .errOther =>
      ({ s with boardDataCache := setKey s.boardDataCache pid defaultBoardRow },
       [.fetchBoardData pid])

/-- `loadProjectsList()`. -/
def loadProjectsList (s : StorageState) : Option (List ProjectSummary) :=
  if isCloudEnabled s = false then none else some s.projectsListCache

/-- `saveProjectsList(list)`: replaces the cache and issues one name
update per item. -/
def saveProjectsList (s : StorageState) (list : List ProjectSummary) :
    StorageState × List RemoteEvent :=
  if s.enabled = false then (s, [])
  else ({ s with projectsListCache := list },
        list.map (fun item => .updateBoardName item.id))

/-- `loadTasks(projectId)`. -/
def loadTasks (s : StorageState) (pid : String) : Option (List TaskRec) :=
  if isCloudEnabled s = false ∨ pid = "" then none
  else (lookupKey s.boardDataCache pid).map BoardRow.tasks

/-- `loadSettings(projectId)`. -/
def loadSettings (s : StorageState) (pid : String) : Option Settings :=
  if isCloudEnabled s = false ∨ pid = "" then none
  else (lookupKey s.boardDataCache pid).map BoardRow.settings

/-- `loadView(projectId)`. -/
def loadView (s : StorageState) (pid : String) : Option String :=
  if isCloudEnabled s = false ∨ pid = "" then none
  else (lookupKey s.boardDataCache pid).map BoardRow.view

/-- `loadCustomPalettes(projectId)`. -/
def loadCustomPalettes (s : StorageState) (pid : String) : Option (List Palette) :=
  if isCloudEnabled s = false ∨ pid = "" then none
  else (lookupKey s.boardDataCache pid).map BoardRow.custom_palettes

/-- `persistBoardData(projectId)`: the fire-and-forget full-document
upsert, emitted as a single event carrying the whole cached row.  It
does not change local state and no response is consumed. -/
def persistBoardData (s : StorageState) (pid : String) : List RemoteEvent :=
  if s.enabled = false ∨ pid = "" then []
  else match lookupKey s.boardDataCache pid with
  | none => []
  | some row => [.upsertBoardData pid row]

/-- `saveTasks(projectId, data)`: lazily creates the defaulted row
(`ensureBoardDataRow`), mutates the field, then upserts. -/
def saveTasks (s : StorageState) (pid : String) (data : List TaskRec) :
    StorageState × List RemoteEvent :=
  if isCloudEnabled s = false ∨ pid = "" then (s, [])
  else
    let row := (lookupKey s.boardDataCache pid).getD defaultBoardRow
    let s2 := { s with boardDataCache := setKey s.boardDataCache pid { row with tasks := data } }
    (s2, persistBoardData s2 pid)

/-- `saveSettings(projectId, data)`. -/
def saveSettings (s : StorageState) (pid : String) (data : Settings) :
    StorageState × List RemoteEvent :=
  if isCloudEnabled s = false ∨ pid = "" then (s, [])
  else
    let row := (lookupKey s.boardDataCache pid).getD defaultBoardRow
    let s2 := { s with boardDataCache := setKey s.boardDataCache pid { row with settings := data } }
    (s2, persistBoardData s2 pid)

/-- `saveView(projectId, view)`. -/
def saveView (s : StorageState) (pid : String) (view : String) :
    StorageState × List RemoteEvent :=
  if isCloudEnabled s = false ∨ pid = "" then (s, [])
  else
    let row := (lookupKey s.boardDataCache pid).getD defaultBoardRow
    let s2 := { s with boardDataCache := setKey s.boardDataCache pid { row with view := view } }
    (s2, persistBoardData s2 pid)

/-- `saveCustomPalettes(projectId, palettes)`. -/
def saveCustomPalettes (s : StorageState) (pid : String) (palettes : List Palette) :
    StorageState × List RemoteEvent :=
  if isCloudEnabled s = false ∨ pid = "" then (s, [])
  else
    let row := (lookupKey s.boardDataCache pid).getD defaultBoardRow
    let s2 := { s with boardDataCache := setKey s.boardDataCache pid { row with custom_palettes := palettes } }
    (s2, persistBoardData s2 pid)

/-- Environment consumed by `createBoard`: the current session read,
the outcome of the summary-row insert (the fresh id, or `none` on
failure / missing row), and the `Date.now()` clock. -/
structure CreateEnv where
  session : Option String
  insertSummary : Option String
  now : Nat
deriving DecidableEq, Repr

/-- `createBoard(name)`: summary insert first, then (success only) the
best-effort document-row insert, then both local caches are seeded. -/
def createBoard (s : StorageState) (name : String) (env : CreateEnv) :
    StorageState × Option String × List RemoteEvent :=
  if s.enabled = false then (s, none, [])
  else match env.session with
  | none => (s, none, [])
  | some _ =>
    match env.insertSummary with
    | none => (s, none, [.insertSummaryRow (jsOrS name "Untitled project")])
    | some id =>
      let s2 := { s with
        boardDataCache := setKey s.boardDataCache id defaultBoardRow
        projectsListCache := s.projectsListCache ++
          [{ id := id, name := jsOrS name "Untitled project", createdAt := env.now }] }
      (s2, some id, [.insertSummaryRow (jsOrS name "Untitled project"), .insertDocRow id])

/-- Environment consumed by `duplicateBoard`: the source-document fetch
outcome, plus everything `createBoard` needs. -/
structure DupEnv where
  fetchBoard : BoardFetchResult
  create : CreateEnv
deriving DecidableEq, Repr

/-- The list-name patch at the end of `duplicateBoard`
(`projectsListCache[idx].name = newName || ...`). -/
def patchListName (s : StorageState) (id newName : String) : StorageState :=
  { s with projectsListCache :=
      match s.projectsListCache.findIdx? (fun p => p.id == id) with
      | none => s.projectsListCache
      | some i =>
        match s.projectsListCache.get? i with
        | none => s.projectsListCache
        | some p => s.projectsListCache.set i { p with name := jsOrS newName p.name } }

/-- `duplicateBoard(sourceId, newName)`: load the source, create a new
board, and (when both the new id and the source are truthy) deep-copy
the source fields into the new cache entry, persist, and patch the
display name.  In this value semantics the JSON round-trip deep copy is
the identity on the copied value. -/
def duplicateBoard (s : StorageState) (sourceId newName : String) (env : DupEnv) :
    StorageState × Option String × List RemoteEvent :=
  if s.enabled = false then (s, none, [])
  else
    let r1 := ensureBoardDataLoaded s sourceId env.fetchBoard
    let source := lookupKey r1.1.boardDataCache sourceId
    let r2 := createBoard r1.1 newName env.create
    match r2.2.1 with
    | none => (r2.1, none, r1.2 ++ r2.2.2)
    | some id =>
      if id = "" ∨ source.isNone then (r2.1, some id, r1.2 ++ r2.2.2)
      else
        let src := source.getD defaultBoardRow
        let copied : BoardRow :=
          { tasks := src.tasks
            settings := src.settings
            view := jsOrS src.view "default"
            custom_palettes := src.custom_palettes }
        let s3 := { r2.1 with boardDataCache := setKey r2.1.boardDataCache id copied }
        let ev3 := persistBoardData s3 id
        (patchListName s3 id newName, some id, r1.2 ++ r2.2.2 ++ ev3)

/-- `deleteBoard(projectId)`: remote summary delete, then removal from
both caches. -/
def deleteBoard (s : StorageState) (pid : String) : StorageState × List RemoteEvent :=
  if s.enabled = false ∨ pid = "" then (s, [])
  else
    ({ s with boardDataCache := dropKey s.boardDataCache pid
              projectsListCache := s.projectsListCache.filter (fun p => !(p.id == pid)) },
     [.deleteSummaryRow pid])

/-- `signOut()`: remote sign-out, then both caches are cleared, then
the callback (when registered) is invoked with null and observes the
cleared state. -/
def signOut (s : StorageState) : StorageState × List RemoteEvent :=
  if s.enabled = false then (s, [])
  else
    let s2 := { s with projectsListCache := [], boardDataCache := [] }
    (s2, [.authSignOut] ++ (if s2.hasAuthCallback then [.callback none s2] else []))

/-- The auth state change event kinds dispatched by the
`onAuthStateChange` handler installed in `init`. -/
inductive AuthEvent where
  | initialSession
  | signedIn
  | tokenRefreshed
  | signedOut
  | otherEvent
deriving DecidableEq, Repr

/-- The `onAuthStateChange` handler: signed-in kinds with a session
await the full boards-list reload, SIGNED_OUT clears both caches, and
only then is the callback (when registered) invoked with the event
session, observing the updated state. -/
def handleAuthStateChange (s : StorageState) (ev : AuthEvent) (sess : Option String)
    (res : ListFetchResult) : StorageState × List RemoteEvent :=
  let step :=
    match ev with
    | .initialSession | .signedIn | .tokenRefreshed =>
      if sess.isSome then ensureBoardsListLoaded s sess res else (s, [])
    | .signedOut => ({ s with projectsListCache := [], boardDataCache := [] }, [])
    | .otherEvent => (s, [])
  (step.1, step.2 ++ (if step.1.hasAuthCallback then [.callback sess step.1] else []))

/-- One field write, tagging which of the four setters is called. -/
inductive FieldWrite where
  | tasks (pid : String) (v : List TaskRec)
  | settings (pid : String) (v : Settings)
  | view (pid : String) (v : String)
  | palettes (pid : String) (v : List Palette)
deriving DecidableEq, Repr

/-- Dispatch of one field write to the matching setter. -/
def applyWrite (s : StorageState) (w : FieldWrite) : StorageState × List RemoteEvent :=
  match w with
  | .tasks pid v => saveTasks s pid v
  | .settings pid v => saveSettings s pid v
  | .view pid v => saveView s pid v
  | .palettes pid v => saveCustomPalettes s pid v

/-- State reached after a sequence of field writes. -/
def applyWrites (s : StorageState) (ws : List FieldWrite) : StorageState :=
  ws.foldl (fun a w => (applyWrite a w).1) s

/-! ### Example fixtures used by the witnesses -/

/-- A concrete cached board document. -/
def exRow : BoardRow :=
  { tasks := [⟨"A"⟩], settings := [("k", "v")], view := "timeline", custom_palettes := ["p"] }

/-- A concrete enabled state with one project `x` cached in both
caches. -/
def exState : StorageState :=
  { enabled := true
    hasAuthCallback := true
    projectsListCache := [{ id := "x", name := "Launch Plan", createdAt := 1 }]
    boardDataCache := [("x", exRow)] }

/-- The same state with the remote backend disabled. -/
def exStateDisabled : StorageState := { exState with enabled := false }

/-- A concrete creation environment: signed-in user, the remote mints
id `y`. -/
def exCreateEnv : CreateEnv := { session := some "u", insertSummary := some "y", now := 7 }

/-- A concrete duplication environment on top of `exCreateEnv`. -/
def exDupEnv : DupEnv := { fetchBoard := .errOther, create := exCreateEnv }

/-! ### Association-list and helper lemmas -/

theorem lookupKey_setKey_self (l : List (String × BoardRow)) (k : String) (v : BoardRow) :
    lookupKey (setKey l k v) k = some v := by
  induction l with
  | nil => simp [setKey, lookupKey]
  | cons e rest ih =>
    rcases e with ⟨k2, v2⟩
    by_cases h : k2 = k <;> simp [setKey, lookupKey, h, ih]

theorem lookupKey_setKey_ne (l : List (String × BoardRow)) (k k3 : String) (v : BoardRow)
    (h : k3 ≠ k) : lookupKey (setKey l k v) k3 = lookupKey l k3 := by
  induction l with
  | nil => simp [setKey, lookupKey, Ne.symm h]
  | cons e rest ih =>
    rcases e with ⟨k2, v2⟩
    by_cases h2 : k2 = k
    · subst h2
      simp [setKey, lookupKey, Ne.symm h]
    · by_cases h3 : k2 = k3
      · subst h3
        simp [setKey, lookupKey, h2]
      · simp [setKey, lookupKey, h2, h3, ih]

theorem patchListName_boardDataCache (s : StorageState) (id n : String) :
    (patchListName s id n).boardDataCache = s.boardDataCache := rfl

theorem patchListName_enabled (s : StorageState) (id n : String) :
    (patchListName s id n).enabled = s.enabled := rfl

theorem ensureBoardDataLoaded_cached (s : StorageState) (pid : String)
    (res : BoardFetchResult) (h : (lookupKey s.boardDataCache pid).isSome = true) :
    ensureBoardDataLoaded s pid res = (s, []) := by
  by_cases hg : s.enabled = false ∨ pid = ""
  · simp [ensureBoardDataLoaded, hg]
  · simp [ensureBoardDataLoaded, hg, h]

theorem lookupKey_dropKey_self (l : List (String × BoardRow)) (k : String) :
    lookupKey (dropKey l k) k = none := by
  induction l with
  | nil => simp [dropKey, lookupKey]
  | cons e rest ih =>
    rcases e with ⟨k2, v2⟩
    by_cases h : k2 = k <;> simp [dropKey, lookupKey, h, ih]

/-! ### Claims -/

/-- C1: for every enabled session and non-empty project id, after
`ensureBoardDataLoaded` completes — whatever the remote outcome (row,
no-row PGRST116, or any other error) — the board cache holds a document
for that id and each of the four field reads returns a non-null value
of the default shape. -/
theorem C1_ensureBoardDataLoaded_populates (s : StorageState) (pid : String)
    (res : BoardFetchResult) (hen : s.enabled = true) (hpid : pid ≠ "") :
    (lookupKey (ensureBoardDataLoaded s pid res).1.boardDataCache pid).isSome = true ∧
    (∃ ts, loadTasks (ensureBoardDataLoaded s pid res).1 pid = some ts) ∧
    (∃ st, loadSettings (ensureBoardDataLoaded s pid res).1 pid = some st) ∧
    (∃ v, loadView (ensureBoardDataLoaded s pid res).1 pid = some v) ∧
    (∃ ps, loadCustomPalettes (ensureBoardDataLoaded s pid res).1 pid = some ps) := by
  by_cases hc : (lookupKey s.boardDataCache pid).isSome
  · rcases Option.isSome_iff_exists.mp hc with ⟨r, hr⟩
    simp [ensureBoardDataLoaded, hen, hpid, hc, hr, loadTasks, loadSettings, loadView,
      loadCustomPalettes, isCloudEnabled]
  · cases res <;>
      simp [ensureBoardDataLoaded, hen, hpid, hc, loadTasks, loadSettings, loadView,
        loadCustomPalettes, isCloudEnabled, lookupKey_setKey_self]

/-- C1 witness: concrete enabled state, fresh id `y`, failing fetch. -/
theorem C1_witness :
    exState.enabled = true ∧ ("y" : String) ≠ "" ∧
    ((lookupKey (ensureBoardDataLoaded exState "y" .errOther).1.boardDataCache "y").isSome = true ∧
     (∃ ts, loadTasks (ensureBoardDataLoaded exState "y" .errOther).1 "y" = some ts) ∧
     (∃ st, loadSettings (ensureBoardDataLoaded exState "y" .errOther).1 "y" = some st) ∧
     (∃ v, loadView (ensureBoardDataLoaded exState "y" .errOther).1 "y" = some v) ∧
     (∃ ps, loadCustomPalettes (ensureBoardDataLoaded exState "y" .errOther).1 "y" = some ps)) :=
  ⟨by decide, by decide,
   C1_ensureBoardDataLoaded_populates exState "y" .errOther (by decide) (by decide)⟩

/-- C6: `ensureBoardDataLoaded` is idempotent: when the id is already
cached the call is a no-op issuing no remote fetch and leaving the
state unchanged, and two consecutive calls for the same id issue at
most one remote fetch in total. -/
theorem C6_ensureBoardDataLoaded_idempotent (s : StorageState) (pid : String)
    (r1 r2 : BoardFetchResult) :
    ((lookupKey s.boardDataCache pid).isSome = true →
      ensureBoardDataLoaded s pid r1 = (s, [])) ∧
    (ensureBoardDataLoaded s pid r1).2.length
      + (ensureBoardDataLoaded (ensureBoardDataLoaded s pid r1).1 pid r2).2.length ≤ 1 := by
  constructor
  · intro hc
    by_cases hg : s.enabled = false ∨ pid = ""
    · simp [ensureBoardDataLoaded, hg]
    · simp [ensureBoardDataLoaded, hg, hc]
  · by_cases hg : s.enabled = false ∨ pid = ""
    · simp [ensureBoardDataLoaded, hg]
    · by_cases hc : (lookupKey s.boardDataCache pid).isSome
      · simp [ensureBoardDataLoaded, hg, hc]
      · cases r1 <;> cases r2 <;>
          simp [ensureBoardDataLoaded, hg, hc, lookupKey_setKey_self]

/-- C6 witness: concrete state with `x` already cached. -/
theorem C6_witness :
    (lookupKey exState.boardDataCache "x").isSome = true ∧
    ensureBoardDataLoaded exState "x" .errOther = (exState, []) :=
  ⟨by decide,
   (C6_ensureBoardDataLoaded_idempotent exState "x" .errOther .errOther).1 (by decide)⟩

/-- C2: while the backend is disabled, for every project id, field and
value, each field setter is a no-op that stores nothing and issues no
remote request, and each subsequent field read returns null; this holds
across every sequence of such writes. -/
theorem C2_disabled_writes_noop (s : StorageState) (ws : List FieldWrite)
    (hdis : s.enabled = false) :
    applyWrites s ws = s ∧
    (∀ w, applyWrite s w = (s, [])) ∧
    (∀ pid, loadTasks (applyWrites s ws) pid = none ∧
            loadSettings (applyWrites s ws) pid = none ∧
            loadView (applyWrites s ws) pid = none ∧
            loadCustomPalettes (applyWrites s ws) pid = none) := by
  have hw : ∀ w, applyWrite s w = (s, []) := by
    intro w
    cases w <;>
      simp [applyWrite, saveTasks, saveSettings, saveView, saveCustomPalettes,
        isCloudEnabled, hdis]
  have hws : applyWrites s ws = s := by
    induction ws with
    | nil => rfl
    | cons w rest ih =>
      simp only [applyWrites, List.foldl_cons]
      rw [show (applyWrite s w).1 = s from by rw [hw]]
      exact ih
  refine ⟨hws, hw, ?_⟩
  intro pid
  rw [hws]
  simp [loadTasks, loadSettings, loadView, loadCustomPalettes, isCloudEnabled, hdis]

/-- C2 witness: disabled state, one concrete write sequence. -/
theorem C2_witness :
    exStateDisabled.enabled = false ∧
    (applyWrites exStateDisabled [FieldWrite.view "x" "timeline"] = exStateDisabled ∧
     (∀ w, applyWrite exStateDisabled w = (exStateDisabled, [])) ∧
     (∀ pid,
       loadTasks (applyWrites exStateDisabled [FieldWrite.view "x" "timeline"]) pid = none ∧
       loadSettings (applyWrites exStateDisabled [FieldWrite.view "x" "timeline"]) pid = none ∧
       loadView (applyWrites exStateDisabled [FieldWrite.view "x" "timeline"]) pid = none ∧
       loadCustomPalettes (applyWrites exStateDisabled [FieldWrite.view "x" "timeline"]) pid = none)) :=
  ⟨by decide,
   C2_disabled_writes_noop exStateDisabled [FieldWrite.view "x" "timeline"] (by decide)⟩

/-- C7: in an enabled session with a non-empty project id, each field
write followed synchronously by the matching field read returns exactly
the written value, for each of the four document fields and any value;
the setters consume no remote response, so nothing is awaited. -/
theorem C7_save_then_load_roundtrip (s : StorageState) (pid : String)
    (hen : s.enabled = true) (hpid : pid ≠ "") :
    (∀ v, loadView (saveView s pid v).1 pid = some v) ∧
    (∀ ts, loadTasks (saveTasks s pid ts).1 pid = some ts) ∧
    (∀ st, loadSettings (saveSettings s pid st).1 pid = some st) ∧
    (∀ ps, loadCustomPalettes (saveCustomPalettes s pid ps).1 pid = some ps) := by
  refine ⟨?_, ?_, ?_, ?_⟩ <;> intro v <;>
    simp [saveView, saveTasks, saveSettings, saveCustomPalettes, loadView, loadTasks,
      loadSettings, loadCustomPalettes, isCloudEnabled, hen, hpid, lookupKey_setKey_self]

/-- C7 witness: the literal `saveView` / `loadView` round trip with
value `timeline` on a concrete enabled state. -/
theorem C7_witness :
    exState.enabled = true ∧ ("x" : String) ≠ "" ∧
    loadView (saveView exState "x" "timeline").1 "x" = some "timeline" :=
  ⟨by decide, by decide,
   (C7_save_then_load_roundtrip exState "x" (by decide) (by decide)).1 "timeline"⟩

/-- C10: each field setter called with an empty/absent project id is a
complete no-op even in an enabled session: the returned state is the
input state (no cache entry created or modified) and no remote request
is issued. -/
theorem C10_save_empty_id_noop (s : StorageState) (ts : List TaskRec) (st : Settings)
    (v : String) (ps : List Palette) :
    saveTasks s "" ts = (s, []) ∧ saveSettings s "" st = (s, []) ∧
    saveView s "" v = (s, []) ∧ saveCustomPalettes s "" ps = (s, []) := by
  refine ⟨?_, ?_, ?_, ?_⟩ <;>
    simp [saveTasks, saveSettings, saveView, saveCustomPalettes, isCloudEnabled]

/-- C3: after `signOut` completes (and likewise after a SIGNED_OUT auth
event is processed), the previously cached project list is gone (the
list cache is empty) and every board field read on any previously
cached document returns null; both caches are already cleared at the
moment the callback is invoked with null, as the callback event
snapshot shows. -/
theorem C3_signout_clears (s : StorageState) (res : ListFetchResult)
    (hen : s.enabled = true) (hcb : s.hasAuthCallback = true) :
    (∃ s2, signOut s = (s2, [.authSignOut, .callback none s2]) ∧
      s2.projectsListCache = [] ∧ s2.boardDataCache = [] ∧
      (∀ l, loadProjectsList s2 = some l → l = []) ∧
      (∀ pid, loadTasks s2 pid = none ∧ loadSettings s2 pid = none ∧
              loadView s2 pid = none ∧ loadCustomPalettes s2 pid = none)) ∧
    (∃ s3, handleAuthStateChange s .signedOut none res = (s3, [.callback none s3]) ∧
      s3.projectsListCache = [] ∧ s3.boardDataCache = [] ∧
      (∀ l, loadProjectsList s3 = some l → l = []) ∧
      (∀ pid, loadTasks s3 pid = none ∧ loadSettings s3 pid = none ∧
              loadView s3 pid = none ∧ loadCustomPalettes s3 pid = none)) := by
  constructor
  · refine ⟨{ s with projectsListCache := [], boardDataCache := [] }, ?_, rfl, rfl, ?_, ?_⟩
    · simp [signOut, hen, hcb]
    · intro l hl
      simp [loadProjectsList, isCloudEnabled] at hl
      exact hl.2
    · intro pid
      simp [loadTasks, loadSettings, loadView, loadCustomPalettes, isCloudEnabled, lookupKey]
  · refine ⟨{ s with projectsListCache := [], boardDataCache := [] }, ?_, rfl, rfl, ?_, ?_⟩
    · simp [handleAuthStateChange, hcb]
    · intro l hl
      simp [loadProjectsList, isCloudEnabled] at hl
      exact hl.2
    · intro pid
      simp [loadTasks, loadSettings, loadView, loadCustomPalettes, isCloudEnabled, lookupKey]

/-- C3 witness: concrete enabled state with both caches populated. -/
theorem C3_witness :
    exState.enabled = true ∧ exState.hasAuthCallback = true ∧
    ((∃ s2, signOut exState = (s2, [.authSignOut, .callback none s2]) ∧
      s2.projectsListCache = [] ∧ s2.boardDataCache = [] ∧
      (∀ l, loadProjectsList s2 = some l → l = []) ∧
      (∀ pid, loadTasks s2 pid = none ∧ loadSettings s2 pid = none ∧
              loadView s2 pid = none ∧ loadCustomPalettes s2 pid = none)) ∧
     (∃ s3, handleAuthStateChange exState .signedOut none .err = (s3, [.callback none s3]) ∧
      s3.projectsListCache = [] ∧ s3.boardDataCache = [] ∧
      (∀ l, loadProjectsList s3 = some l → l = []) ∧
      (∀ pid, loadTasks s3 pid = none ∧ loadSettings s3 pid = none ∧
              loadView s3 pid = none ∧ loadCustomPalettes s3 pid = none))) :=
  ⟨by decide, by decide, C3_signout_clears exState .err (by decide) (by decide)⟩

/-- C4: on every auth transition to a signed-in identity
(INITIAL_SESSION, SIGNED_IN or TOKEN_REFRESHED with a session), when
the remote list select succeeds the full reload of the project list
cache completes before the registered callback is invoked: the emitted
trace is the list fetch followed by the callback, and the snapshot the
callback observes already holds exactly the remote list for that
identity, never a stale or foreign one. -/
theorem C4_signin_reloads_before_callback (s : StorageState) (ev : AuthEvent)
    (u : String) (rows : Option (List BoardsRow))
    (hen : s.enabled = true) (hcb : s.hasAuthCallback = true)
    (hev : ev = .initialSession ∨ ev = .signedIn ∨ ev = .tokenRefreshed) :
    ∃ s2, handleAuthStateChange s ev (some u) (.ok rows)
        = (s2, [.fetchBoardsList, .callback (some u) s2]) ∧
      s2.projectsListCache = (rows.getD []).map summaryOfRow := by
  refine ⟨{ s with projectsListCache := (rows.getD []).map summaryOfRow }, ?_, rfl⟩
  rcases hev with h | h | h <;> subst h <;>
    simp [handleAuthStateChange, ensureBoardsListLoaded, hen, hcb]

/-- C4 witness: SIGNED_IN event on a concrete state whose cached list
differs from the remote list. -/
theorem C4_witness :
    exState.enabled = true ∧ exState.hasAuthCallback = true ∧
    (AuthEvent.signedIn = AuthEvent.initialSession ∨
     AuthEvent.signedIn = AuthEvent.signedIn ∨
     AuthEvent.signedIn = AuthEvent.tokenRefreshed) ∧
    (∃ s2, handleAuthStateChange exState .signedIn (some "u")
          (.ok (some [{ id := "b", name := none, created_at := 5 }]))
        = (s2, [.fetchBoardsList, .callback (some "u") s2]) ∧
      s2.projectsListCache
        = ((some [{ id := "b", name := none, created_at := 5 }] :
            Option (List BoardsRow)).getD []).map summaryOfRow) :=
  ⟨by decide, by decide, Or.inr (Or.inl rfl),
   C4_signin_reloads_before_callback exState .signedIn "u"
     (some [{ id := "b", name := none, created_at := 5 }])
     (by decide) (by decide) (Or.inr (Or.inl rfl))⟩

/-- C5: `createBoard` returns null when the backend is disabled and
when there is no signed-in identity; and whenever the remote
summary-row insert fails it returns null without modifying either
cache and without attempting the document-row insert. -/
theorem C5_createBoard_guards (s : StorageState) (name : String) (env : CreateEnv) :
    (s.enabled = false → createBoard s name env = (s, none, [])) ∧
    (env.session = none → createBoard s name env = (s, none, [])) ∧
    (env.insertSummary = none →
      (createBoard s name env).1 = s ∧ (createBoard s name env).2.1 = none ∧
      ∀ pid, RemoteEvent.insertDocRow pid ∉ (createBoard s name env).2.2) := by
  refine ⟨?_, ?_, ?_⟩
  · intro h
    simp [createBoard, h]
  · intro h
    by_cases he : s.enabled = false <;> simp [createBoard, h, he]
  · intro h
    by_cases he : s.enabled = false
    · simp [createBoard, he]
    · cases hs : env.session with
      | none => simp [createBoard, he, hs]
      | some uid => simp [createBoard, he, hs, h]

/-- C5 witness: enabled state, signed-in identity, failing summary
insert. -/
theorem C5_witness :
    ({ session := some "u", insertSummary := none, now := 7 } : CreateEnv).insertSummary
      = none ∧
    ((createBoard exState "New" { session := some "u", insertSummary := none, now := 7 }).1
        = exState ∧
     (createBoard exState "New" { session := some "u", insertSummary := none, now := 7 }).2.1
        = none ∧
     ∀ pid, RemoteEvent.insertDocRow pid ∉
       (createBoard exState "New" { session := some "u", insertSummary := none, now := 7 }).2.2) :=
  ⟨by decide,
   (C5_createBoard_guards exState "New"
     { session := some "u", insertSummary := none, now := 7 }).2.2 (by decide)⟩

/-- C9: after `deleteBoard X` completes in an enabled session, the
project list cache has no entry with id X and every board field read
for X returns null (X is removed from both caches); the call is a
no-op when the backend is disabled or the project id is empty. -/
theorem C9_deleteBoard_removes (s : StorageState) (pid : String) :
    (s.enabled = true → pid ≠ "" →
      ((∀ p ∈ (deleteBoard s pid).1.projectsListCache, p.id ≠ pid) ∧
       loadTasks (deleteBoard s pid).1 pid = none ∧
       loadSettings (deleteBoard s pid).1 pid = none ∧
       loadView (deleteBoard s pid).1 pid = none ∧
       loadCustomPalettes (deleteBoard s pid).1 pid = none)) ∧
    (s.enabled = false → deleteBoard s pid = (s, [])) ∧
    (pid = "" → deleteBoard s pid = (s, [])) := by
  refine ⟨?_, ?_, ?_⟩
  · intro hen hpid
    refine ⟨?_, ?_⟩
    · intro p hp
      simp [deleteBoard, hen, hpid, List.mem_filter] at hp
      exact hp.2
    · simp [deleteBoard, hen, hpid, loadTasks, loadSettings, loadView, loadCustomPalettes,
        isCloudEnabled, lookupKey_dropKey_self]
  · intro h
    simp [deleteBoard, h]
  · intro h
    simp [deleteBoard, h]

/-- C9 witness: deleting the single cached project `x`. -/
theorem C9_witness :
    exState.enabled = true ∧ ("x" : String) ≠ "" ∧
    ((∀ p ∈ (deleteBoard exState "x").1.projectsListCache, p.id ≠ "x") ∧
     loadTasks (deleteBoard exState "x").1 "x" = none ∧
     loadSettings (deleteBoard exState "x").1 "x" = none ∧
     loadView (deleteBoard exState "x").1 "x" = none ∧
     loadCustomPalettes (deleteBoard exState "x").1 "x" = none) :=
  ⟨by decide, by decide, (C9_deleteBoard_removes exState "x").1 (by decide) (by decide)⟩

/-- C8: duplication.  When the source document of X is cached, in an
enabled session where the underlying create succeeds with a fresh id Y
distinct from X, `duplicateBoard X` returns Y, the cached tasks,
settings and palettes of Y are structurally equal to those of X, and
the copy is independent: mutating the tasks of Y afterwards leaves the
tasks of X unchanged.  The result is null exactly when the underlying
create failed; and when the source document could not be loaded the
call still returns the newly created empty board id. -/
theorem C8_duplicateBoard_copies (s : StorageState) (X Y newName : String)
    (r : BoardRow) (env : DupEnv) :
    (s.enabled = true → X ≠ "" → lookupKey s.boardDataCache X = some r →
     env.create.session.isSome = true → env.create.insertSummary = some Y →
     Y ≠ X → Y ≠ "" →
      ((duplicateBoard s X newName env).2.1 = some Y ∧
       loadTasks (duplicateBoard s X newName env).1 Y = some r.tasks ∧
       loadSettings (duplicateBoard s X newName env).1 Y = some r.settings ∧
       loadCustomPalettes (duplicateBoard s X newName env).1 Y = some r.custom_palettes ∧
       loadTasks (duplicateBoard s X newName env).1 X = some r.tasks ∧
       (∀ v, loadTasks (saveTasks (duplicateBoard s X newName env).1 Y v).1 X
          = some r.tasks))) ∧
    ((duplicateBoard s X newName env).2.1 = none ↔
      (createBoard (ensureBoardDataLoaded s X env.fetchBoard).1 newName env.create).2.1
        = none) ∧
    (s.enabled = true → X = "" → lookupKey s.boardDataCache X = none →
     env.create.session.isSome = true → env.create.insertSummary = some Y → Y ≠ "" →
      ((duplicateBoard s X newName env).2.1 = some Y ∧
       loadTasks (duplicateBoard s X newName env).1 Y = some [])) := by
  refine ⟨?_, ?_, ?_⟩
  · intro hen hX hsrc hsess hins hYX hY
    obtain ⟨u, hu⟩ := Option.isSome_iff_exists.mp hsess
    have hens : ensureBoardDataLoaded s X env.fetchBoard = (s, []) :=
      ensureBoardDataLoaded_cached _ _ _ (by simp [hsrc])
    have hXY : X ≠ Y := Ne.symm hYX
    have hlookX : ∀ l v, lookupKey (setKey l Y v) X = lookupKey l X := fun l v =>
      lookupKey_setKey_ne l Y X v hXY
    refine ⟨?_, ?_, ?_, ?_, ?_, ?_⟩ <;>
      simp [duplicateBoard, hens, createBoard, hen, hu, hins, hsrc, hY, hX,
        loadTasks, loadSettings, loadCustomPalettes, saveTasks, isCloudEnabled,
        patchListName_boardDataCache, patchListName_enabled,
        lookupKey_setKey_self, hlookX]
  · by_cases he : s.enabled = false
    · have h2 : (ensureBoardDataLoaded s X env.fetchBoard).1 = s := by
        simp [ensureBoardDataLoaded, he]
      rw [h2]
      simp [duplicateBoard, createBoard, he]
    · have hen : s.enabled = true := by
        revert he
        cases s.enabled <;> simp
      simp only [duplicateBoard, hen]
      rw [if_neg (by simp)]
      cases hc : (createBoard (ensureBoardDataLoaded s X env.fetchBoard).1 newName
          env.create).2.1 with
      | none => simp [hc]
      | some id =>
        by_cases hid : id = "" ∨
            lookupKey (ensureBoardDataLoaded s X env.fetchBoard).1.boardDataCache X = none
        · simp [hid]
        · simp [hid]
  · intro hen hX hnone hsess hins hY
    obtain ⟨u, hu⟩ := Option.isSome_iff_exists.mp hsess
    subst hX
    simp [duplicateBoard, ensureBoardDataLoaded, createBoard, hen, hu, hins, hnone, hY,
      loadTasks, isCloudEnabled, lookupKey_setKey_self, defaultBoardRow]

/-- C8 witness: source `x` with tasks `[{task := A}]`, fresh id `y`;
the duplicate returns `y`, its tasks equal the source tasks, and
overwriting the tasks of `y` leaves the tasks of `x` unchanged. -/
theorem C8_witness :
    exState.enabled = true ∧ ("x" : String) ≠ "" ∧
    lookupKey exState.boardDataCache "x" = some exRow ∧
    exDupEnv.create.session.isSome = true ∧
    exDupEnv.create.insertSummary = some "y" ∧ ("y" : String) ≠ "x" ∧ ("y" : String) ≠ "" ∧
    ((duplicateBoard exState "x" "Copy" exDupEnv).2.1 = some "y" ∧
     loadTasks (duplicateBoard exState "x" "Copy" exDupEnv).1 "y" = some exRow.tasks ∧
     loadSettings (duplicateBoard exState "x" "Copy" exDupEnv).1 "y" = some exRow.settings ∧
     loadCustomPalettes (duplicateBoard exState "x" "Copy" exDupEnv).1 "y"
       = some exRow.custom_palettes ∧
     loadTasks (duplicateBoard exState "x" "Copy" exDupEnv).1 "x" = some exRow.tasks ∧
     (∀ v, loadTasks (saveTasks (duplicateBoard exState "x" "Copy" exDupEnv).1 "y" v).1 "x"
        = some exRow.tasks)) :=
  ⟨by decide, by decide, by decide, by decide, by decide, by decide, by decide,
   (C8_duplicateBoard_copies exState "x" "y" "Copy" exRow exDupEnv).1
     (by decide) (by decide) (by decide) (by decide) (by decide) (by decide) (by decide)⟩

end GanttStorage
